import Mathlib

/-!
Shallow embedding of src/TrackViz.py.

The program loads a table of GPS samples, resolves which columns hold
latitude, longitude and heading by substring matching on normalized column
names, derives shifted headings, computes heading-indicator segment
endpoints by trigonometric projection, and renders plots.

Column names are modelled as lists of characters, numeric columns as lists
of rationals, and the trigonometric projection is carried out over the
real numbers.
-/

namespace TrackViz

/-! Python string helpers used by the column resolver. -/

/-- Embeds the Python str.lower method, character by character (ASCII case
folding, which is what Char.toLower performs on ASCII input). -/
def pyLower (s : List Char) : List Char := s.map Char.toLower

/-- Embeds the Python str.strip method: remove leading and trailing
whitespace. -/
def pyStrip (s : List Char) : List Char :=
  ((s.dropWhile Char.isWhitespace).reverse.dropWhile Char.isWhitespace).reverse

/-- Normalization applied to every column name at lines 31 and 113 of
TrackViz.py: col.lower().strip(). -/
def pyNorm (s : List Char) : List Char := pyStrip (pyLower s)

/-- Helper for substring search: does s start with pat? -/
def startsWithL : List Char → List Char → Bool
  | _, [] => true
  | [], _ :: _ => false
  | c :: s, d :: t => c == d && startsWithL s t

/-- Does s contain pat as a contiguous substring? -/
def hasSubstr : List Char → List Char → Bool
  | [], pat => startsWithL [] pat
  | s@(_ :: t), pat => startsWithL s pat || hasSubstr t pat

/-- Embeds the Python expression pat in s (substring containment). -/
def pyIn (pat s : List Char) : Bool := hasSubstr s pat

/-! Substring keys used by the two column resolvers. -/

def kLatitude : List Char := "latitude".toList

def kLongitude : List Char := "longitude".toList

def kLong : List Char := "long".toList

def kCourse : List Char := "course".toList

def kLat : List Char := "lat".toList

def kLon : List Char := "lon".toList

def kHead : List Char := "head".toList

/-! Column resolver. -/

/-- Category a column name is classified into by one iteration of the
resolver loop. -/
inductive Cat where
  | lat
  | lon
  | head
  | other
deriving BEq, DecidableEq

/-- Classification of one column name by the strict resolver loop body,
lines 31 to 37 of TrackViz.py: test latitude, then longitude-or-long, then
course, as a chain of elif branches. -/
def classifyStrict (col : List Char) : Cat :=
  let cl := pyNorm col
  if pyIn kLatitude cl then Cat.lat
  else if pyIn kLongitude cl || pyIn kLong cl then Cat.lon
  else if pyIn kCourse cl then Cat.head
  else Cat.other

/-- Classification of one column name by the permissive resolver loop body,
lines 113 to 119 of TrackViz.py: test lat, then lon-or-long, then head. -/
def classifyPerm (col : List Char) : Cat :=
  let cl := pyNorm col
  if pyIn kLat cl then Cat.lat
  else if pyIn kLon cl || pyIn kLong cl then Cat.lon
  else if pyIn kHead cl then Cat.head
  else Cat.other

/-- The three resolved column-name variables lat_col, lon_col, heading_col,
each None until a matching column is seen. -/
structure ResolvedCols where
  lat_col : Option (List Char)
  lon_col : Option (List Char)
  heading_col : Option (List Char)

/-- One iteration of the strict resolver loop (lines 30 to 37): the branch
taken assigns the current column name to the corresponding variable,
unconditionally overwriting any earlier assignment. -/
def strictStep (acc : ResolvedCols) (col : List Char) : ResolvedCols :=
  match classifyStrict col with
  | Cat.lat => { acc with lat_col := some col }
  | Cat.lon => { acc with lon_col := some col }
  | Cat.head => { acc with heading_col := some col }
  | Cat.other => acc

/-- The strict resolver of load_and_plot_gps_track: fold the loop body over
the column names in table order, starting from all three variables None. -/
def resolveStrict (cols : List (List Char)) : ResolvedCols :=
  cols.foldl strictStep ⟨none, none, none⟩

/-- One iteration of the permissive resolver loop (lines 112 to 119). -/
def permStep (acc : ResolvedCols) (col : List Char) : ResolvedCols :=
  match classifyPerm col with
  | Cat.lat => { acc with lat_col := some col }
  | Cat.lon => { acc with lon_col := some col }
  | Cat.head => { acc with heading_col := some col }
  | Cat.other => acc

/-- The permissive resolver of plot_with_custom_settings. -/
def resolvePermissive (cols : List (List Char)) : ResolvedCols :=
  cols.foldl permStep ⟨none, none, none⟩

/-- The column whose classification under the given predicate is the LAST
match in scan order, written as the same left fold shape as the resolver. -/
def lastMatching (p : List Char → Prop) [DecidablePred p] (cols : List (List Char)) :
    Option (List Char) :=
  cols.foldl (fun a c => if p c then some c else a) none

/-! Heading shift (lines 51 to 56 of TrackViz.py). -/

/-- Net effect of the numpy slice assignments at lines 51 to 56:
shifted[0 : N-1] = headings[1 : N] and shifted[N-1] = headings[N-1]
(the initial full copy at line 52 is overwritten except at the last slot,
where it already equals headings[N-1]). For a nonempty list this is the
tail followed by the last element repeated; numpy raises on an empty
array, which the claims do not reach. -/
def shiftHeadings {α : Type} (hs : List α) : List α :=
  match hs.getLast? with
  | none => []
  | some v => hs.tail ++ [v]

theorem shiftHeadings_nil {α : Type} : shiftHeadings ([] : List α) = [] := rfl

theorem shiftHeadings_cons {α : Type} (a : α) (t : List α) :
    shiftHeadings (a :: t) = t ++ [(a :: t).getLast (by simp)] := by
  simp [shiftHeadings, List.getLast?_eq_getLast]

theorem shiftHeadings_length {α : Type} (hs : List α) :
    (shiftHeadings hs).length = hs.length := by
  cases hs with
  | nil => rfl
  | cons a t => rw [shiftHeadings_cons]; simp

theorem shiftHeadings_getElem?_lt {α : Type} (hs : List α) (i : ℕ)
    (h : i + 1 < hs.length) : (shiftHeadings hs)[i]? = hs[i + 1]? := by
  cases hs with
  | nil => simp at h
  | cons a t =>
      rw [shiftHeadings_cons, List.getElem?_append]
      have ht : i < t.length := by simpa using h
      simp [ht]

theorem shiftHeadings_getElem?_last {α : Type} (hs : List α)
    (h : hs ≠ []) :
    (shiftHeadings hs)[hs.length - 1]? = hs[hs.length - 1]? := by
  cases hs with
  | nil => exact absurd rfl h
  | cons a t =>
      rw [shiftHeadings_cons]
      have hlen : (a :: t).length - 1 = t.length := by simp
      rw [hlen, List.getElem?_concat_length]
      rw [← List.getLast?_eq_getLast, List.getLast?_eq_getElem?]
      simp

/-! Resolver fold lemmas: each resolved variable equals the last matching
column in scan order, because each loop iteration overwrites. -/

theorem strictStep_lat (acc : ResolvedCols) (col : List Char) :
    (strictStep acc col).lat_col =
      if classifyStrict col = Cat.lat then some col else acc.lat_col := by
  cases h : classifyStrict col <;> simp [strictStep, h]

theorem strictStep_lon (acc : ResolvedCols) (col : List Char) :
    (strictStep acc col).lon_col =
      if classifyStrict col = Cat.lon then some col else acc.lon_col := by
  cases h : classifyStrict col <;> simp [strictStep, h]

theorem strictStep_head (acc : ResolvedCols) (col : List Char) :
    (strictStep acc col).heading_col =
      if classifyStrict col = Cat.head then some col else acc.heading_col := by
  cases h : classifyStrict col <;> simp [strictStep, h]

theorem permStep_lat (acc : ResolvedCols) (col : List Char) :
    (permStep acc col).lat_col =
      if classifyPerm col = Cat.lat then some col else acc.lat_col := by
  cases h : classifyPerm col <;> simp [permStep, h]

theorem permStep_lon (acc : ResolvedCols) (col : List Char) :
    (permStep acc col).lon_col =
      if classifyPerm col = Cat.lon then some col else acc.lon_col := by
  cases h : classifyPerm col <;> simp [permStep, h]

theorem permStep_head (acc : ResolvedCols) (col : List Char) :
    (permStep acc col).heading_col =
      if classifyPerm col = Cat.head then some col else acc.heading_col := by
  cases h : classifyPerm col <;> simp [permStep, h]

theorem foldl_strict_lat (cols : List (List Char)) (acc : ResolvedCols) :
    (List.foldl strictStep acc cols).lat_col =
      List.foldl (fun a c => if classifyStrict c = Cat.lat then some c else a)
        acc.lat_col cols := by
  induction cols generalizing acc with
  | nil => rfl
  | cons c cs ih => simp only [List.foldl_cons, ih, strictStep_lat]

theorem foldl_strict_lon (cols : List (List Char)) (acc : ResolvedCols) :
    (List.foldl strictStep acc cols).lon_col =
      List.foldl (fun a c => if classifyStrict c = Cat.lon then some c else a)
        acc.lon_col cols := by
  induction cols generalizing acc with
  | nil => rfl
  | cons c cs ih => simp only [List.foldl_cons, ih, strictStep_lon]

theorem foldl_strict_head (cols : List (List Char)) (acc : ResolvedCols) :
    (List.foldl strictStep acc cols).heading_col =
      List.foldl (fun a c => if classifyStrict c = Cat.head then some c else a)
        acc.heading_col cols := by
  induction cols generalizing acc with
  | nil => rfl
  | cons c cs ih => simp only [List.foldl_cons, ih, strictStep_head]

theorem foldl_perm_lat (cols : List (List Char)) (acc : ResolvedCols) :
    (List.foldl permStep acc cols).lat_col =
      List.foldl (fun a c => if classifyPerm c = Cat.lat then some c else a)
        acc.lat_col cols := by
  induction cols generalizing acc with
  | nil => rfl
  | cons c cs ih => simp only [List.foldl_cons, ih, permStep_lat]

theorem foldl_perm_lon (cols : List (List Char)) (acc : ResolvedCols) :
    (List.foldl permStep acc cols).lon_col =
      List.foldl (fun a c => if classifyPerm c = Cat.lon then some c else a)
        acc.lon_col cols := by
  induction cols generalizing acc with
  | nil => rfl
  | cons c cs ih => simp only [List.foldl_cons, ih, permStep_lon]

theorem foldl_perm_head (cols : List (List Char)) (acc : ResolvedCols) :
    (List.foldl permStep acc cols).heading_col =
      List.foldl (fun a c => if classifyPerm c = Cat.head then some c else a)
        acc.heading_col cols := by
  induction cols generalizing acc with
  | nil => rfl
  | cons c cs ih => simp only [List.foldl_cons, ih, permStep_head]

/-! Heading-to-geometry transform (lines 61 to 65 and 126 to 128). -/

/-- Embeds numpy.radians: degrees times pi over 180. -/
noncomputable def radians (d : ℝ) : ℝ := d * Real.pi / 180

/-- Elementwise conversion at line 61 and line 126:
heading_rad = np.radians(90 - headings_in_use). -/
noncomputable def headingAngles (hs : List ℚ) : List ℝ :=
  hs.map fun (h : ℚ) => radians ((90 : ℝ) - (h : ℝ))

/-- Line 64 and line 127: end_lats = lats + line_length * np.sin(heading_rad),
elementwise over the paired lists. -/
noncomputable def end_lats (lats : List ℚ) (angles : List ℝ) (L : ℝ) :
    List ℝ :=
  List.zipWith (fun (la : ℚ) (a : ℝ) => (la : ℝ) + L * Real.sin a) lats angles

/-- Line 65 and line 128: end_lons = lons + line_length * np.cos(heading_rad). -/
noncomputable def end_lons (lons : List ℚ) (angles : List ℝ) (L : ℝ) :
    List ℝ :=
  List.zipWith (fun (lo : ℚ) (a : ℝ) => (lo : ℝ) + L * Real.cos a) lons angles

/-- Segment endpoints computed by load_and_plot_gps_track (lines 51 to 65):
headings are shifted first, then converted and projected. -/
noncomputable def loadSegments (lats lons hs : List ℚ) (L : ℝ) :
    List ℝ × List ℝ :=
  (end_lats lats (headingAngles (shiftHeadings hs)) L,
   end_lons lons (headingAngles (shiftHeadings hs)) L)

/-- Segment endpoints computed by plot_with_custom_settings (lines 126 to
128): the raw headings are converted and projected, with no shift. -/
noncomputable def customSegments (lats lons hs : List ℚ) (L : ℝ) :
    List ℝ × List ℝ :=
  (end_lats lats (headingAngles hs) L,
   end_lons lons (headingAngles hs) L)

theorem end_lats_getElem? (lats : List ℚ) (angles : List ℝ) (L : ℝ) (i : ℕ)
    (la : ℚ) (a : ℝ) (h1 : lats[i]? = some la) (h2 : angles[i]? = some a) :
    (end_lats lats angles L)[i]? = some ((la : ℝ) + L * Real.sin a) := by
  rw [end_lats, List.getElem?_zipWith, h1, h2]

theorem end_lons_getElem? (lons : List ℚ) (angles : List ℝ) (L : ℝ) (i : ℕ)
    (lo : ℚ) (a : ℝ) (h1 : lons[i]? = some lo) (h2 : angles[i]? = some a) :
    (end_lons lons angles L)[i]? = some ((lo : ℝ) + L * Real.cos a) := by
  rw [end_lons, List.getElem?_zipWith, h1, h2]

theorem headingAngles_getElem? (hs : List ℚ) (i : ℕ) (h : ℚ)
    (hh : hs[i]? = some h) :
    (headingAngles hs)[i]? = some (radians ((90 : ℝ) - (h : ℝ))) := by
  rw [headingAngles, List.getElem?_map, hh]; rfl

/-! Last-match and nonemptiness facts about the resolver folds. -/

theorem foldl_lastMatch_of_some (p : List Char → Prop) [DecidablePred p]
    (cols : List (List Char)) (acc : Option (List Char)) (x : List Char)
    (h : List.foldl (fun a c => if p c then some c else a) acc cols = some x) :
    acc = some x ∨ p x := by
  induction cols generalizing acc with
  | nil => exact Or.inl h
  | cons c cs ih =>
      simp only [List.foldl_cons] at h
      rcases ih _ h with h' | h'
      · by_cases hp : p c
        · rw [if_pos hp] at h'
          exact Or.inr (Option.some_injective _ h' ▸ hp)
        · rw [if_neg hp] at h'
          exact Or.inl h'
      · exact Or.inr h'

theorem classifyStrict_nil : classifyStrict [] = Cat.other := by decide

theorem classifyPerm_nil : classifyPerm [] = Cat.other := by decide

theorem resolveStrict_lat_ne_nil (cols : List (List Char)) (s : List Char)
    (h : (resolveStrict cols).lat_col = some s) : s ≠ [] := by
  rw [resolveStrict, foldl_strict_lat] at h
  rcases foldl_lastMatch_of_some _ cols none s h with h' | h'
  · exact absurd h' (by simp)
  · intro hnil
    rw [hnil, classifyStrict_nil] at h'
    exact Cat.noConfusion h'

theorem resolveStrict_lon_ne_nil (cols : List (List Char)) (s : List Char)
    (h : (resolveStrict cols).lon_col = some s) : s ≠ [] := by
  rw [resolveStrict, foldl_strict_lon] at h
  rcases foldl_lastMatch_of_some _ cols none s h with h' | h'
  · exact absurd h' (by simp)
  · intro hnil
    rw [hnil, classifyStrict_nil] at h'
    exact Cat.noConfusion h'

theorem resolveStrict_head_ne_nil (cols : List (List Char)) (s : List Char)
    (h : (resolveStrict cols).heading_col = some s) : s ≠ [] := by
  rw [resolveStrict, foldl_strict_head] at h
  rcases foldl_lastMatch_of_some _ cols none s h with h' | h'
  · exact absurd h' (by simp)
  · intro hnil
    rw [hnil, classifyStrict_nil] at h'
    exact Cat.noConfusion h'

/-! Histogram binning (line 146 of TrackViz.py). -/

/-- Bin edges produced by the matplotlib call ax2.hist(headings, bins=36)
at line 146. With an integer bins argument and no range argument,
matplotlib delegates to numpy.histogram, whose documented behavior is
nbins + 1 equally spaced edges from the data minimum to the data maximum
(numpy.linspace(a.min(), a.max(), nbins + 1)). The minimum and maximum
are written as left folds over the list. -/
def histBinEdges (data : List ℚ) (nbins : ℕ) : List ℚ :=
  match data with
  | [] => []
  | d :: ds =>
      let mn := (d :: ds).foldl min d
      let mx := (d :: ds).foldl max d
      (List.range (nbins + 1)).map fun (i : ℕ) => mn + (mx - mn) * (i : ℚ) / (nbins : ℚ)

/-- The histogram panel of plot_with_custom_settings applied to the raw
heading values with bins=36. -/
def headingHistEdges (hs : List ℚ) : List ℚ := histBinEdges hs 36

theorem histBinEdges_getElem? (d : ℚ) (ds : List ℚ) (nbins i : ℕ)
    (h : i < nbins + 1) :
    (histBinEdges (d :: ds) nbins)[i]? =
      some (((d :: ds).foldl min d) +
        (((d :: ds).foldl max d) - ((d :: ds).foldl min d)) * i / nbins) := by
  rw [histBinEdges, List.getElem?_map, List.getElem?_range h]
  rfl

/-! Models of the two top-level functions. -/

/-- A loaded pandas data frame, reduced to what the program reads from it:
its ordered column names and the numeric values of each column. -/
structure Table where
  columns : List (List Char)
  col : List Char → List ℚ

/-- Outcome of the pandas read_csv call at line 17, wrapped by the
try-except of lines 16 to 23. -/
inductive LoadResult where
  | ok (df : Table)
  | err

/-- Python truthiness of an optional column name, as tested by
all([lat_col, lon_col, heading_col]) at line 39: None is falsy and an
empty string is falsy. -/
def pyTruthyName : Option (List Char) → Bool
  | none => false
  | some s => !s.isEmpty

/-- Control flow of load_and_plot_gps_track (lines 16 to 100): on load
failure return None (line 23); resolve columns; if the truthiness check at
line 39 fails, return None (line 42) before any numeric computation;
otherwise extract the three columns, compute the segments (lines 45 to 65),
render, and return the data frame (line 100). -/
noncomputable def load_and_plot_gps_track (r : LoadResult) (L : ℝ) :
    Option Table :=
  match r with
  | LoadResult.err => none
  | LoadResult.ok df =>
      let rc := resolveStrict df.columns
      if pyTruthyName rc.lat_col && pyTruthyName rc.lon_col &&
          pyTruthyName rc.heading_col then
        let lats := df.col (rc.lat_col.getD [])
        let lons := df.col (rc.lon_col.getD [])
        let hs := df.col (rc.heading_col.getD [])
        let _segs := loadSegments lats lons hs L
        some df
      else
        none

/-- Outcome of a Python call that may raise an uncaught exception. -/
inductive PyResult (α : Type) where
  | ok (a : α)
  | raised

/-- Control flow of plot_with_custom_settings (lines 108 to 155): resolve
columns permissively with no guard; the column lookups at lines 121 to 123
raise a KeyError when a category is still None; otherwise compute the
segments (lines 126 to 128), render both panels (the second a histogram of
the raw headings, line 146), and return the data frame (line 155). -/
noncomputable def plot_with_custom_settings (df : Table) (L : ℝ) :
    PyResult Table :=
  let rc := resolvePermissive df.columns
  match rc.lat_col, rc.lon_col, rc.heading_col with
  | some lc, some oc, some hc =>
      let _segs := customSegments (df.col lc) (df.col oc) (df.col hc) L
      let _hist := headingHistEdges (df.col hc)
      PyResult.ok df
  | _, _, _ => PyResult.raised

/-! Substring monotonicity helpers. -/

theorem startsWithL_of_append (a b : List Char) :
    ∀ s : List Char, startsWithL s (a ++ b) = true → startsWithL s a = true := by
  induction a with
  | nil => intro s _; cases s <;> rfl
  | cons c a' ih =>
      intro s h
      cases s with
      | nil => simp [startsWithL] at h
      | cons d s' =>
          simp only [List.cons_append, startsWithL, Bool.and_eq_true] at h ⊢
          exact ⟨h.1, ih s' h.2⟩

theorem hasSubstr_of_append (a b : List Char) :
    ∀ s : List Char, hasSubstr s (a ++ b) = true → hasSubstr s a = true := by
  intro s
  induction s with
  | nil =>
      intro h
      cases a with
      | nil => rfl
      | cons c a' => simp [hasSubstr, startsWithL] at h
  | cons c t ih =>
      intro h
      simp only [hasSubstr, Bool.or_eq_true] at h ⊢
      rcases h with h | h
      · exact Or.inl (startsWithL_of_append a b _ h)
      · exact Or.inr (ih h)

theorem pyIn_kLong_of_kLongitude (s : List Char)
    (h : pyIn kLongitude s = true) : pyIn kLong s = true := by
  have hsplit : kLongitude = kLong ++ "itude".toList := by decide
  rw [pyIn] at h ⊢
  rw [hsplit] at h
  exact hasSubstr_of_append _ _ _ h

/-! Claim theorems. -/

/-- C1: In load_and_plot_gps_track, the derived shifted_headings satisfies
shifted_headings[i] = headings[i+1] for every i in [0, N-2], and
shifted_headings[N-1] = headings[N-1]; for N = 1 this last clause gives
shifted_headings[0] = headings[0]. -/
theorem c1_shifted_headings (hs : List ℚ) :
    (∀ i : ℕ, i + 1 < hs.length →
      (shiftHeadings hs)[i]? = hs[i + 1]?) ∧
    (1 ≤ hs.length →
      (shiftHeadings hs)[hs.length - 1]? = hs[hs.length - 1]?) := by
  constructor
  · intro i hi
    exact shiftHeadings_getElem?_lt hs i hi
  · intro h1
    apply shiftHeadings_getElem?_last
    cases hs with
    | nil => simp at h1
    | cons a t => simp

/-- Witness for C1 at the three-row table with headings 1, 2, 3: row 0 gets
the heading of row 1, and the last row keeps its own heading. -/
theorem c1_shifted_headings_witness :
    (shiftHeadings [(1 : ℚ), 2, 3])[0]? = [(1 : ℚ), 2, 3][1]? ∧
    (shiftHeadings [(1 : ℚ), 2, 3])[[(1 : ℚ), 2, 3].length - 1]? =
      [(1 : ℚ), 2, 3][[(1 : ℚ), 2, 3].length - 1]? :=
  ⟨(c1_shifted_headings [(1 : ℚ), 2, 3]).1 0 (by decide),
   (c1_shifted_headings [(1 : ℚ), 2, 3]).2 (by decide)⟩

/-- C2 counterexample: with the column list [alatitude, blatitude] both
names match the latitude category of the strict resolver, and the category
resolves to the SECOND (last) matching column, not the first: the claim
that the first match is kept and later matches are ignored is false. -/
theorem c2_counterexample :
    (resolveStrict ["alatitude".toList, "blatitude".toList]).lat_col =
      some "blatitude".toList ∧
    some "blatitude".toList ≠ some "alatitude".toList := by
  constructor
  · decide
  · decide

/-- C2 amended: in both resolver variants, when two or more columns match
the same category the category resolves to the LAST matching column in
scan order; a later match overwrites the earlier resolution. -/
theorem c2_last_match_wins (cols : List (List Char)) :
    (resolveStrict cols).lat_col =
      lastMatching (fun c => classifyStrict c = Cat.lat) cols ∧
    (resolveStrict cols).lon_col =
      lastMatching (fun c => classifyStrict c = Cat.lon) cols ∧
    (resolveStrict cols).heading_col =
      lastMatching (fun c => classifyStrict c = Cat.head) cols ∧
    (resolvePermissive cols).lat_col =
      lastMatching (fun c => classifyPerm c = Cat.lat) cols ∧
    (resolvePermissive cols).lon_col =
      lastMatching (fun c => classifyPerm c = Cat.lon) cols ∧
    (resolvePermissive cols).heading_col =
      lastMatching (fun c => classifyPerm c = Cat.head) cols := by
  refine ⟨?_, ?_, ?_, ?_, ?_, ?_⟩
  · rw [resolveStrict, foldl_strict_lat]; rfl
  · rw [resolveStrict, foldl_strict_lon]; rfl
  · rw [resolveStrict, foldl_strict_head]; rfl
  · rw [resolvePermissive, foldl_perm_lat]; rfl
  · rw [resolvePermissive, foldl_perm_lon]; rfl
  · rw [resolvePermissive, foldl_perm_head]; rfl

/-- C10: in the strict resolver the longitude test (contains longitude or
contains long) is equivalent to the single test contains long, and a
column resolves as longitude exactly when it does not match latitude and
its normalized form contains long. -/
theorem c10_long_test (col : List Char) :
    (pyIn kLongitude (pyNorm col) || pyIn kLong (pyNorm col)) =
      pyIn kLong (pyNorm col) ∧
    (classifyStrict col = Cat.lon ↔
      (pyIn kLatitude (pyNorm col) = false ∧
        pyIn kLong (pyNorm col) = true)) := by
  have hor : (pyIn kLongitude (pyNorm col) || pyIn kLong (pyNorm col)) =
      pyIn kLong (pyNorm col) := by
    cases hgl : pyIn kLongitude (pyNorm col)
    · simp
    · simp [pyIn_kLong_of_kLongitude _ hgl]
  refine ⟨hor, ?_⟩
  rw [classifyStrict]
  cases hlat : pyIn kLatitude (pyNorm col)
  · simp only [Bool.false_eq_true, if_false, hor]
    cases hlong : pyIn kLong (pyNorm col)
    · simp only [Bool.false_eq_true, if_false]
      constructor
      · intro hcl
        split at hcl <;> exact absurd hcl (by simp)
      · intro hcl
        exact absurd hcl.2 (by simp [hlong])
    · simp
  · simp

/-- Witness for C10: the column name headlong does not match latitude,
contains long, and resolves as longitude in strict mode. -/
theorem c10_long_test_witness :
    classifyStrict "headlong".toList = Cat.lon :=
  (c10_long_test "headlong".toList).2.mpr ⟨by decide, by decide⟩

/-- C4: the segment endpoint computed by the heading and geometry
transform of load_and_plot_gps_track is
end_lat[i] = lat[i] + line_length * sin(radians(90 - shifted_heading[i]))
and end_lon[i] = lon[i] + line_length * cos(radians(90 - shifted_heading[i])):
the compass bearing is converted by angle = radians(90 - shifted_heading)
before projecting. -/
theorem c4_segment_formula (lats lons hs : List ℚ) (L : ℝ) (i : ℕ)
    (la lo h : ℚ) (hla : lats[i]? = some la) (hlo : lons[i]? = some lo)
    (hsh : (shiftHeadings hs)[i]? = some h) :
    ((loadSegments lats lons hs L).1)[i]? =
      some ((la : ℝ) + L * Real.sin (radians ((90 : ℝ) - (h : ℝ)))) ∧
    ((loadSegments lats lons hs L).2)[i]? =
      some ((lo : ℝ) + L * Real.cos (radians ((90 : ℝ) - (h : ℝ)))) := by
  have hang := headingAngles_getElem? (shiftHeadings hs) i h hsh
  exact ⟨end_lats_getElem? lats _ L i la _ hla hang,
         end_lons_getElem? lons _ L i lo _ hlo hang⟩

/-- Witness for C4 at the one-row table lat 5, lon 6, heading 30 with
line length 2. -/
theorem c4_segment_formula_witness :
    ((loadSegments [5] [6] [30] 2).1)[0]? =
      some (((5 : ℚ) : ℝ) + 2 * Real.sin (radians ((90 : ℝ) - ((30 : ℚ) : ℝ)))) ∧
    ((loadSegments [5] [6] [30] 2).2)[0]? =
      some (((6 : ℚ) : ℝ) + 2 * Real.cos (radians ((90 : ℝ) - ((30 : ℚ) : ℝ)))) :=
  c4_segment_formula [5] [6] [30] 2 0 5 6 30 (by decide) (by decide) (by decide)

/-- C6: with line_length = 0 both transforms leave every point in place:
end_lat[i] = lat[i] and end_lon[i] = lon[i]. -/
theorem c6_zero_line_length (lats lons hs : List ℚ) (i : ℕ) (la lo : ℚ)
    (hla : lats[i]? = some la) (hlo : lons[i]? = some lo)
    (hi : i < hs.length) :
    ((loadSegments lats lons hs 0).1)[i]? = some (la : ℝ) ∧
    ((loadSegments lats lons hs 0).2)[i]? = some (lo : ℝ) ∧
    ((customSegments lats lons hs 0).1)[i]? = some (la : ℝ) ∧
    ((customSegments lats lons hs 0).2)[i]? = some (lo : ℝ) := by
  obtain ⟨h1, hh1⟩ : ∃ h, (shiftHeadings hs)[i]? = some h := by
    have hlen : i < (shiftHeadings hs).length := by
      rw [shiftHeadings_length]; exact hi
    exact ⟨_, List.getElem?_eq_getElem hlen⟩
  obtain ⟨h2, hh2⟩ : ∃ h, hs[i]? = some h := ⟨_, List.getElem?_eq_getElem hi⟩
  have a1 := headingAngles_getElem? (shiftHeadings hs) i h1 hh1
  have a2 := headingAngles_getElem? hs i h2 hh2
  refine ⟨?_, ?_, ?_, ?_⟩
  · rw [loadSegments]
    rw [end_lats_getElem? lats _ 0 i la _ hla a1]
    norm_num
  · rw [loadSegments]
    rw [end_lons_getElem? lons _ 0 i lo _ hlo a1]
    norm_num
  · rw [customSegments]
    rw [end_lats_getElem? lats _ 0 i la _ hla a2]
    norm_num
  · rw [customSegments]
    rw [end_lons_getElem? lons _ 0 i lo _ hlo a2]
    norm_num

/-- Witness for C6 at the one-row table lat 3, lon 4, heading 123. -/
theorem c6_zero_line_length_witness :
    ((loadSegments [3] [4] [123] 0).1)[0]? = some ((3 : ℚ) : ℝ) ∧
    ((loadSegments [3] [4] [123] 0).2)[0]? = some ((4 : ℚ) : ℝ) ∧
    ((customSegments [3] [4] [123] 0).1)[0]? = some ((3 : ℚ) : ℝ) ∧
    ((customSegments [3] [4] [123] 0).2)[0]? = some ((4 : ℚ) : ℝ) :=
  c6_zero_line_length [3] [4] [123] 0 3 4 (by decide) (by decide) (by decide)

/-- C3 counterexample: the claim says BOTH entry points render the segment
at row i from the heading of row i+1. In plot_with_custom_settings, with
rows at heading 0 then 90 and line length 1, the row-0 end latitude is 1
(computed from the row-0 heading 0), while the heading of row 1 would give
0; so plot_with_custom_settings does not use the next-row heading. -/
theorem c3_counterexample :
    ((customSegments [0, 0] [0, 0] [0, 90] 1).1)[0]? = some 1 ∧
    (0 : ℝ) + 1 * Real.sin (radians ((90 : ℝ) - ((90 : ℚ) : ℝ))) = 0 ∧
    (1 : ℝ) ≠ 0 := by
  refine ⟨?_, ?_, by norm_num⟩
  · rw [customSegments]
    have a0 := headingAngles_getElem? [(0 : ℚ), 90] 0 0 (by decide)
    rw [end_lats_getElem? [0, 0] _ 1 0 0 _ (by decide) a0]
    have hrad : radians ((90 : ℝ) - ((0 : ℚ) : ℝ)) = Real.pi / 2 := by
      rw [radians]; norm_num; ring
    rw [hrad, Real.sin_pi_div_two]
    norm_num
  · have hz : (90 : ℝ) - ((90 : ℚ) : ℝ) = 0 := by norm_num
    rw [hz, radians]
    simp

/-- C3 amended: in load_and_plot_gps_track the segment at row i is
computed from the heading recorded at row i+1 and the final row from its
own heading; in plot_with_custom_settings every row is computed from its
own raw heading, with no shift. -/
theorem c3_heading_assignment (lats lons hs : List ℚ) (L : ℝ) (i : ℕ)
    (la lo : ℚ) (hla : lats[i]? = some la) (hlo : lons[i]? = some lo) :
    (∀ h : ℚ, i + 1 < hs.length → hs[i + 1]? = some h →
      ((loadSegments lats lons hs L).1)[i]? =
        some ((la : ℝ) + L * Real.sin (radians ((90 : ℝ) - (h : ℝ)))) ∧
      ((loadSegments lats lons hs L).2)[i]? =
        some ((lo : ℝ) + L * Real.cos (radians ((90 : ℝ) - (h : ℝ))))) ∧
    (∀ h : ℚ, hs ≠ [] → i = hs.length - 1 → hs[i]? = some h →
      ((loadSegments lats lons hs L).1)[i]? =
        some ((la : ℝ) + L * Real.sin (radians ((90 : ℝ) - (h : ℝ)))) ∧
      ((loadSegments lats lons hs L).2)[i]? =
        some ((lo : ℝ) + L * Real.cos (radians ((90 : ℝ) - (h : ℝ))))) ∧
    (∀ h : ℚ, hs[i]? = some h →
      ((customSegments lats lons hs L).1)[i]? =
        some ((la : ℝ) + L * Real.sin (radians ((90 : ℝ) - (h : ℝ)))) ∧
      ((customSegments lats lons hs L).2)[i]? =
        some ((lo : ℝ) + L * Real.cos (radians ((90 : ℝ) - (h : ℝ))))) := by
  refine ⟨?_, ?_, ?_⟩
  · intro h hi hnext
    have hsh : (shiftHeadings hs)[i]? = some h := by
      rw [shiftHeadings_getElem?_lt hs i hi]; exact hnext
    have hang := headingAngles_getElem? (shiftHeadings hs) i h hsh
    exact ⟨end_lats_getElem? lats _ L i la _ hla hang,
           end_lons_getElem? lons _ L i lo _ hlo hang⟩
  · intro h hne hlast hown
    have hsh : (shiftHeadings hs)[i]? = some h := by
      rw [hlast] at hown ⊢
      rw [shiftHeadings_getElem?_last hs hne]; exact hown
    have hang := headingAngles_getElem? (shiftHeadings hs) i h hsh
    exact ⟨end_lats_getElem? lats _ L i la _ hla hang,
           end_lons_getElem? lons _ L i lo _ hlo hang⟩
  · intro h hown
    have hang := headingAngles_getElem? hs i h hown
    exact ⟨end_lats_getElem? lats _ L i la _ hla hang,
           end_lons_getElem? lons _ L i lo _ hlo hang⟩

/-- Witness for C3 at the two-row table with headings 0 then 90: in the
shifted path row 0 is rendered from the row-1 heading 90, and in the
custom path row 0 is rendered from its own heading 0. -/
theorem c3_heading_assignment_witness :
    ((loadSegments [10, 20] [30, 40] [0, 90] 1).1)[0]? =
      some (((10 : ℚ) : ℝ) + 1 * Real.sin (radians ((90 : ℝ) - ((90 : ℚ) : ℝ)))) ∧
    ((customSegments [10, 20] [30, 40] [0, 90] 1).1)[0]? =
      some (((10 : ℚ) : ℝ) + 1 * Real.sin (radians ((90 : ℝ) - ((0 : ℚ) : ℝ)))) :=
  ⟨((c3_heading_assignment [10, 20] [30, 40] [0, 90] 1 0 10 30
      (by decide) (by decide)).1 90 (by decide) (by decide)).1,
   ((c3_heading_assignment [10, 20] [30, 40] [0, 90] 1 0 10 30
      (by decide) (by decide)).2.2 0 (by decide)).1⟩

/-- Evaluation of the load-path transform on the two-row example table
lat 0 lon 0 course 0, lat 1 lon 1 course 90, with line length 1. -/
theorem loadSegments_example_eval :
    loadSegments [0, 1] [0, 1] [0, 90] 1 = ([0, 1], [1, 2]) := by
  have hshift : shiftHeadings [(0 : ℚ), 90] = [90, 90] := by decide
  rw [loadSegments, hshift]
  have hrad0 : radians (0 : ℝ) = 0 := by
    rw [radians]; norm_num
  simp [end_lats, end_lons, headingAngles, hrad0]
  norm_num

/-- C5 counterexample: on the example table the code computes the row-0
segment end latitude 0 (from the shifted heading 90, pointing east), not
the latitude 1.0 the claim states. -/
theorem c5_counterexample :
    ((loadSegments [0, 1] [0, 1] [0, 90] 1).1)[0]? = some 0 ∧
    some (0 : ℝ) ≠ some (1 : ℝ) := by
  refine ⟨?_, by simp⟩
  rw [loadSegments_example_eval]
  rfl

/-- C5 amended: on the two-row table lat 0 lon 0 course 0, lat 1 lon 1
course 90 with line length 1, the shifted headings are 90 and 90, the
row-0 segment end is lat 0.0 lon 1.0, and the row-1 segment end is
lat 1.0 lon 2.0. -/
theorem c5_example :
    shiftHeadings [(0 : ℚ), 90] = [90, 90] ∧
    loadSegments [0, 1] [0, 1] [0, 90] 1 = ([0, 1], [1, 2]) :=
  ⟨by decide, loadSegments_example_eval⟩

/-- Table whose column names resolve in strict mode. -/
def dfStrictOk : Table :=
  ⟨["Latitude (deg)".toList, "Longitude (deg)".toList,
    "Course Over Ground".toList], fun _ => [0]⟩

/-- Table with column names x, y, z, which resolve in neither mode. -/
def dfUnresolved : Table :=
  ⟨["x".toList, "y".toList, "z".toList], fun _ => [0]⟩

/-- C7: load_and_plot_gps_track returns None on load failure, returns None
when any of the three strict column categories is unresolved (aborting, in
the model, on the guard before the numeric segment computation), and
returns the loaded table when all three resolve. -/
theorem c7_return_contract (L : ℝ) :
    load_and_plot_gps_track LoadResult.err L = none ∧
    (∀ df : Table,
      ((resolveStrict df.columns).lat_col = none ∨
        (resolveStrict df.columns).lon_col = none ∨
        (resolveStrict df.columns).heading_col = none) →
      load_and_plot_gps_track (LoadResult.ok df) L = none) ∧
    (∀ df : Table,
      (resolveStrict df.columns).lat_col ≠ none →
      (resolveStrict df.columns).lon_col ≠ none →
      (resolveStrict df.columns).heading_col ≠ none →
      load_and_plot_gps_track (LoadResult.ok df) L = some df) := by
  refine ⟨rfl, ?_, ?_⟩
  · intro df h
    rcases h with h | h | h <;>
      simp [load_and_plot_gps_track, pyTruthyName, h]
  · intro df h1 h2 h3
    obtain ⟨s1, hs1⟩ := Option.ne_none_iff_exists'.mp h1
    obtain ⟨s2, hs2⟩ := Option.ne_none_iff_exists'.mp h2
    obtain ⟨s3, hs3⟩ := Option.ne_none_iff_exists'.mp h3
    have n1 := resolveStrict_lat_ne_nil df.columns s1 hs1
    have n2 := resolveStrict_lon_ne_nil df.columns s2 hs2
    have n3 := resolveStrict_head_ne_nil df.columns s3 hs3
    simp [load_and_plot_gps_track, pyTruthyName, hs1, hs2, hs3, n1, n2, n3]

/-- Witness for C7: a load failure returns None, the unresolvable table
x, y, z returns None, and a fully resolvable table is returned as is. -/
theorem c7_return_contract_witness :
    load_and_plot_gps_track LoadResult.err 1 = none ∧
    load_and_plot_gps_track (LoadResult.ok dfUnresolved) 1 = none ∧
    load_and_plot_gps_track (LoadResult.ok dfStrictOk) 1 = some dfStrictOk :=
  ⟨(c7_return_contract 1).1,
   (c7_return_contract 1).2.1 dfUnresolved (Or.inl (by decide)),
   (c7_return_contract 1).2.2 dfStrictOk (by decide) (by decide) (by decide)⟩

/-- C8: when any permissive column category is unresolved,
plot_with_custom_settings surfaces a propagated lookup error (an uncaught
KeyError in the model), never a printed-message None result. -/
theorem c8_custom_raises (df : Table) (L : ℝ)
    (h : (resolvePermissive df.columns).lat_col = none ∨
      (resolvePermissive df.columns).lon_col = none ∨
      (resolvePermissive df.columns).heading_col = none) :
    plot_with_custom_settings df L = PyResult.raised := by
  cases hl : (resolvePermissive df.columns).lat_col with
  | none => simp [plot_with_custom_settings, hl]
  | some lc =>
      cases ho : (resolvePermissive df.columns).lon_col with
      | none => simp [plot_with_custom_settings, hl, ho]
      | some oc =>
          cases hh : (resolvePermissive df.columns).heading_col with
          | none => simp [plot_with_custom_settings, hl, ho, hh]
          | some hc => simp [hl, ho, hh] at h

/-- Witness for C8 at the table with columns x, y, z. -/
theorem c8_custom_raises_witness :
    plot_with_custom_settings dfUnresolved 1 = PyResult.raised :=
  c8_custom_raises dfUnresolved 1 (Or.inl (by decide))

/-- C9 counterexample: for the heading data 0 and 180 the histogram bin
edges are 0, 5, ..., 180 (equal bins over the data range), not the fixed
edges 0, 10, ..., 360 the claim states for every input. -/
theorem c9_counterexample :
    headingHistEdges [(0 : ℚ), 180] =
      (List.range 37).map (fun (i : ℕ) => (5 : ℚ) * i) ∧
    headingHistEdges [(0 : ℚ), 180] ≠
      (List.range 37).map (fun (i : ℕ) => (10 : ℚ) * i) := by
  constructor <;>
    norm_num [headingHistEdges, histBinEdges, List.range_succ]

/-- C9 amended: the second panel bins the raw heading values into exactly
36 equal-width buckets spanning the data minimum to the data maximum;
the buckets are the fixed 10-degree buckets over 0 to 360 exactly when
the data attains minimum 0 and maximum 360, not for every input. -/
theorem c9_histogram (d : ℚ) (ds : List ℚ) :
    (headingHistEdges (d :: ds)).length = 37 ∧
    (∀ i : ℕ, i < 37 →
      (headingHistEdges (d :: ds))[i]? =
        some (((d :: ds).foldl min d) +
          (((d :: ds).foldl max d) - ((d :: ds).foldl min d)) * i / 36)) ∧
    ((d :: ds).foldl min d = 0 → (d :: ds).foldl max d = 360 →
      headingHistEdges (d :: ds) =
        (List.range 37).map (fun (i : ℕ) => (10 : ℚ) * i)) := by
  refine ⟨?_, ?_, ?_⟩
  · simp [headingHistEdges, histBinEdges]
  · intro i hi
    have h := histBinEdges_getElem? d ds 36 i hi
    rw [headingHistEdges, h]
    norm_num
  · intro hmn hmx
    rw [headingHistEdges, histBinEdges]
    simp only [hmn, hmx]
    apply List.map_congr_left
    intro i _
    push_cast
    field_simp
    ring

/-- Witness for C9 at the heading data 0 and 360: 37 edges, second edge
10, and the full fixed 10-degree grid. -/
theorem c9_histogram_witness :
    (headingHistEdges [(0 : ℚ), 360]).length = 37 ∧
    (headingHistEdges [(0 : ℚ), 360])[1]? = some 10 ∧
    headingHistEdges [(0 : ℚ), 360] =
      (List.range 37).map (fun (i : ℕ) => (10 : ℚ) * i) := by
  refine ⟨(c9_histogram 0 [360]).1, ?_,
    (c9_histogram 0 [360]).2.2 (by norm_num) (by norm_num)⟩
  have h := (c9_histogram 0 [360]).2.1 1 (by norm_num)
  rw [h]
  norm_num

end TrackViz
